import Mathlib

/-!
Verification of the x-automation repository (two Python scripts,
`src/x.py` — the post pipeline — and `src/main.py` — the video pipeline)
against its natural-language specification.

Python strings are modelled as `List Char` (`PyStr`); Python `str.strip()`
is modelled over the ASCII whitespace characters; fallible operations are
modelled as total functions over explicit outcome types; the persisted
history file (`posted_slangs.json`) is modelled as an explicit file-system
state record threaded through the functions that touch it.
-/

set_option autoImplicit false

namespace XAuto

/-- Python strings, modelled as lists of characters. -/
abbrev PyStr := List Char

/-- The backtick character (U+0060), written via its code point. -/
def backtick : Char := Char.ofNat 96

/-- The newline character. -/
def nl : Char := Char.ofNat 10

/-- ASCII whitespace, as stripped by Python `str.strip()` (we model the
ASCII subset of Python's whitespace class: space, tab, LF, VT, FF, CR). -/
def isPySpace (c : Char) : Bool :=
  c = Char.ofNat 32 || c = Char.ofNat 9 || c = Char.ofNat 10 ||
  c = Char.ofNat 11 || c = Char.ofNat 12 || c = Char.ofNat 13

/-- Python `s.strip()`: remove leading and trailing whitespace. -/
def pyStrip (s : PyStr) : PyStr :=
  ((s.dropWhile isPySpace).reverse.dropWhile isPySpace).reverse

/-- Python `s.replace("x", "")` for a single character: delete every
occurrence of `c` from `s`. -/
def pyRemoveChar (c : Char) (s : PyStr) : PyStr :=
  s.filter (fun x => x ≠ c)

/-- Python `s.split(sep)` for a one-character separator: keeps empty
fields, always returns a non-empty list. -/
def pySplitChar (sep : Char) : PyStr → List PyStr
  | [] => [[]]
  | x :: xs =>
    match pySplitChar sep xs with
    | [] => [[]]
    | l :: ls => if x = sep then [] :: l :: ls else (x :: l) :: ls

/-- Whether `needle` is a prefix of `hay`, decidably, over characters. -/
def isPrefixB : PyStr → PyStr → Bool
  | [], _ => true
  | _ :: _, [] => false
  | a :: as, b :: bs => a = b && isPrefixB as bs

/-- Python `needle in hay`: substring containment. -/
def containsSeq (needle : PyStr) : PyStr → Bool
  | [] => isPrefixB needle []
  | hay@(_ :: rest) => isPrefixB needle hay || containsSeq needle rest

/-! ## The persisted history store of `src/x.py`

`posted_slangs.json` holds a JSON list of strings (the posted
expressions).  The file may be absent, present but not valid JSON, or
present and valid.  `load_posted_items` renames an invalid file to
`POSTED_SLANGS_FILE.with_suffix(".bak")` and returns the empty list. -/

/-- State of one file slot on disk. -/
inductive FileState where
  /-- The file does not exist. -/
  | absent
  /-- The file exists but its contents fail to parse as JSON. -/
  | invalid (contents : PyStr)
  /-- The file exists and parses as a JSON list of strings. -/
  | valid (items : List PyStr)
  deriving DecidableEq, Repr

/-- The slice of the file system the post pipeline touches: the history
file `posted_slangs.json` and the backup slot `posted_slangs.bak`. -/
structure FS where
  /-- Contents at the history path `posted_slangs.json`. -/
  main : FileState
  /-- Contents at the backup path, if that file exists. -/
  bak : Option FileState
  deriving DecidableEq, Repr

/-- Model of `pathlib.Path.with_suffix`: the stem of the final path component
(everything before the last dot, when a dot follows a non-empty stem)
with the new suffix appended. -/
def withSuffix (name : PyStr) (suffix : PyStr) : PyStr :=
  match name.reverse.dropWhile (fun c => c ≠ Char.ofNat 46) with
  | [] => name ++ suffix
  | _ :: rest => if rest.isEmpty then name ++ suffix else rest.reverse ++ suffix

/-- The history file path constant of `src/x.py`. -/
def POSTED_SLANGS_FILE : PyStr := "posted_slangs.json".toList

/-- The path an invalid history file is renamed to:
`POSTED_SLANGS_FILE.with_suffix(".bak")`. -/
def BACKUP_PATH : PyStr := withSuffix POSTED_SLANGS_FILE ".bak".toList

/-- Function `load_posted_items` (src/x.py:53-62): return the parsed list when the
file exists and parses; on `json.JSONDecodeError` rename the file to the
backup path and fall through; return `[]` when the file is missing.  The
function is total: no branch raises.  Returns the loaded list together
with the file-system state after the call. -/
def load_posted_items (fs : FS) : List PyStr × FS :=
  match fs.main with
  | .absent => ([], fs)
  | .invalid c => ([], { main := .absent, bak := some (.invalid c) })
  | .valid items => (items, fs)

/-- Function `save_posted_items` (src/x.py:65-68): overwrite the history file with
the JSON serialization of `items_list`. -/
def save_posted_items (items_list : List PyStr) (fs : FS) : FS :=
  { fs with main := .valid items_list }

/-! ## Tweet generation and extraction (`generate_tweet_content`) -/

/-- The marker expected on the first line of the generated tweet. -/
def MARKER : PyStr := "【今日のネイティブフレーズ】".toList

/-- The normalized tweet text (src/x.py:147):
`response.text.strip().replace("`", "")` — surrounding whitespace
trimmed, then every backtick removed. -/
def tweet_text (raw : PyStr) : PyStr :=
  pyRemoveChar backtick (pyStrip raw)

/-- Key extraction from the normalized text (src/x.py:150-154): split on
newlines; when there are at least two lines and the first contains the
marker, the key is the trimmed second line; otherwise no key. -/
def extract_new_item (raw : PyStr) : Option PyStr :=
  if 1 < (pySplitChar nl (tweet_text raw)).length ∧
      containsSeq MARKER ((pySplitChar nl (tweet_text raw)).getD 0 []) then
    some (pyStrip ((pySplitChar nl (tweet_text raw)).getD 1 []))
  else
    none

/-- Result of `generate_tweet_content` on a model response that was not
blocked and raised no exception: the pair `(tweet_text, new_item)`
(src/x.py:141-154).  A blocked or failing call yields `(None, None)` in
the source and is modelled by the caller receiving no response. -/
def generate_tweet_content (raw : PyStr) : PyStr × Option PyStr :=
  (tweet_text raw, extract_new_item raw)

/-! ## Posting (`post_to_x`) -/

/-- Outcome of `x_client.create_tweet` as observed by `post_to_x`
(src/x.py:162-175): either the call raises `tweepy.errors.TweepyException`,
or it returns a response whose `data` dict may be missing/falsy and whose
`"id"` entry may be absent.  `returns none` covers a falsy response or
falsy `response.data`; `returns (some none)` covers data present but no
`"id"` key; `returns (some (some id))` carries the id value. -/
inductive CallResult where
  | raises
  | returns (data : Option (Option PyStr))
  deriving DecidableEq, Repr

/-- Function `post_to_x` (src/x.py:162-175): `True` only when a (truthy) tweet id
is present; `False` on a caught exception or on any response without an
id.  Python truthiness of the id string is `id ≠ ""`. -/
def post_to_x (call : CallResult) : Bool :=
  match call with
  | .raises => false
  | .returns none => false
  | .returns (some none) => false
  | .returns (some (some id)) => id ≠ []

/-! ## The post pipeline `main` (src/x.py:179-206) -/

/-- Observable outcome of one run of the post pipeline after client
setup: the final file-system state plus instrumentation flags recording
whether `save_posted_items` was called and whether the
no-new-expression warning was printed. -/
structure XRun where
  finalFS : FS
  saveCalled : Bool
  warned : Bool
  posted : Bool
  deriving DecidableEq, Repr

/-- The post pipeline body (src/x.py:183-202): load history, generate,
return early when no text was generated (Python falsiness of the empty
string included), post, and append-and-save the new key only on a
successful post; on success without a key print a warning instead.
`modelResp` is `none` when generation returned `(None, None)` (blocked
response or caught exception). -/
def x_main (fs0 : FS) (modelResp : Option PyStr) (call : CallResult) : XRun :=
  let loaded := load_posted_items fs0
  let existing_items := loaded.1
  let fs1 := loaded.2
  match modelResp with
  | none => ⟨fs1, false, false, false⟩
  | some raw =>
    let gen := generate_tweet_content raw
    if gen.1 = [] then ⟨fs1, false, false, false⟩
    else if post_to_x call then
      match gen.2 with
      | some new_item =>
        ⟨save_posted_items (existing_items ++ [new_item]) fs1, true, false, true⟩
      | none => ⟨fs1, false, true, true⟩
    else ⟨fs1, false, false, false⟩

/-! ## Configuration checks (src/x.py:14-49, src/main.py:27-34) -/

/-- Python truthiness of an `os.getenv` result: `None` and the empty
string are falsy. -/
def envTruthy : Option PyStr → Bool
  | none => false
  | some s => s ≠ []

/-- The five credentials read by the post pipeline (src/x.py:19-23). -/
structure XEnv where
  gemini_api_key : Option PyStr
  x_api_key : Option PyStr
  x_api_key_secret : Option PyStr
  x_access_token : Option PyStr
  x_access_token_secret : Option PyStr
  deriving DecidableEq, Repr

/-- Outcome of `setup_clients` (src/x.py:14-49): `sys.exit(1)` when any
of the five credentials is missing (`SystemExit` is not an `Exception`,
so `main`'s handler does not catch it and the process hard-exits), or
when X authentication fails; otherwise the clients are returned. -/
inductive SetupOutcome where
  | exitProcess (code : Nat)
  | ok
  deriving DecidableEq, Repr

/-- Function `setup_clients` (src/x.py:14-49), given the environment and whether
the `get_me` authentication probe succeeds. -/
def setup_clients (e : XEnv) (authOk : Bool) : SetupOutcome :=
  if !(envTruthy e.gemini_api_key && envTruthy e.x_api_key &&
       envTruthy e.x_api_key_secret && envTruthy e.x_access_token &&
       envTruthy e.x_access_token_secret) then .exitProcess 1
  else if !authOk then .exitProcess 1
  else .ok

/-- Function `setup_environment` (src/main.py:27-34): raises `ValueError` when
either API key is missing, modelled as `Except`. -/
def setup_environment (gemini openai : Option PyStr) : Except Unit Unit :=
  if !envTruthy gemini || !envTruthy openai then .error () else .ok ()

/-- How a run of the video pipeline's `main` ends at the process level:
it hard-exits (it never does — no `sys.exit` is reached), or it finishes
gracefully, having printed the configuration diagnostic or not. -/
inductive VideoExit where
  | hardExit (code : Nat)
  | gracefulFinish (configErrorPrinted : Bool)
  deriving DecidableEq, Repr

/-- Process-level exit behavior of the video pipeline `main`
(src/main.py:217-287): the `ValueError` raised by `setup_environment` on
missing keys is caught by `except ValueError` (src/main.py:278-279),
the diagnostic is printed, the `finally` block shuts the server down and
the function returns normally — a graceful finish, never a hard exit. -/
def video_main_exit (gemini openai : Option PyStr) : VideoExit :=
  match setup_environment gemini openai with
  | .error _ => .gracefulFinish true
  | .ok _ => .gracefulFinish false

/-! ## Script generation, JSON mode (src/main.py:42-132) -/

/-- First-run detection (src/main.py:234):
`not SCRIPTS_FILE.exists() or os.path.getsize(SCRIPTS_FILE) == 0`. -/
def is_first_time_check (fileExists : Bool) (size : Nat) : Bool :=
  !fileExists || size == 0

/-- The item-count parameter (src/main.py:56):
`num_to_generate = 1 if is_first_time else 10`. -/
def num_to_generate (is_first_time : Bool) : Nat :=
  if is_first_time then 1 else 10

/-- One generated script: an object with `english_script` and
`japanese_translation` fields. -/
structure Script where
  english_script : PyStr
  japanese_translation : PyStr
  deriving DecidableEq, Repr

/-- What `json.loads` makes of the full streamed response text
(src/main.py:113): the parse fails, or succeeds with a top-level value
that is a list of scripts, or succeeds with some non-list value. -/
inductive ParseOutcome where
  | parseError
  | topLevelNotList
  | listOf (scripts : List Script)
  deriving DecidableEq, Repr

/-- The value `generate_script_with_gemini` returns (src/main.py:104-132):
a `json.JSONDecodeError` from parsing, or the explicitly raised one when
the top-level value is not a list, is caught and `[]` is returned; a
parsed list is appended to the scripts file and returned. -/
def generate_script_result (p : ParseOutcome) : List Script :=
  match p with
  | .parseError => []
  | .topLevelNotList => []
  | .listOf scripts => scripts

/-! ## The video pipeline `main` after generation (src/main.py:236-276) -/

/-- Instrumentation of one run of the video pipeline past setup: which
downstream phases were entered.  `audioStepRan` records whether
`generate_audio_with_openai` was invoked at all; `renderAttempts`
counts iterations of the render loop (one per `(script, audio)` pair). -/
structure VideoRun where
  generated : List Script
  audioStepRan : Bool
  renderAttempts : Nat
  deriving DecidableEq, Repr

/-- The video pipeline body after setup (src/main.py:236-276): when
generation yields nothing, return before audio generation; when audio
generation yields no file, return before rendering; otherwise render
once per `zip(new_scripts, audio_paths)` pair.  `audioOk` says which
scripts' TTS calls succeed (failures are logged and skipped,
src/main.py:161-162). -/
def video_main_run (p : ParseOutcome) (audioOk : Script → Bool) : VideoRun :=
  let new_scripts := generate_script_result p
  if new_scripts.isEmpty then ⟨new_scripts, false, 0⟩
  else
    let audio_paths := new_scripts.filter audioOk
    if audio_paths.isEmpty then ⟨new_scripts, true, 0⟩
    else ⟨new_scripts, true, (new_scripts.zip audio_paths).length⟩

/-! ## Duration-to-frames (src/main.py:256-259)

`duration_in_frames = math.ceil((audio_duration_seconds + 1.0) * 60)`.
Durations are modelled in exact rational arithmetic. -/

/-- The fixed frame rate (the literal `60` in src/main.py:259). -/
def FRAME_RATE : ℚ := 60

/-- The fixed end margin in seconds (the literal `1.0` in
src/main.py:259). -/
def END_MARGIN : ℚ := 1

/-- The frame count computed for an audio duration of `d` seconds
(src/main.py:259). -/
def duration_in_frames (d : ℚ) : ℤ :=
  ⌈(d + END_MARGIN) * FRAME_RATE⌉

/-! ## Helper lemmas -/

/-- Loading is idempotent on the loaded items: reloading after a load
returns the same list (a corrupt file is renamed away by the first
load, and the second load sees an absent file, returning `[]` again). -/
theorem load_posted_items_idem (fs : FS) :
    (load_posted_items (load_posted_items fs).2).1 = (load_posted_items fs).1 := by
  cases h : fs.main <;> simp [load_posted_items, h]

/-- The deleted character is gone from a `pyRemoveChar` result. -/
theorem not_mem_pyRemoveChar (c : Char) (s : PyStr) : c ∉ pyRemoveChar c s := by
  intro hmem
  have := (List.mem_filter.mp hmem).2
  simp at this

/-- Stripping only removes characters. -/
theorem mem_of_mem_pyStrip {x : Char} {s : PyStr} (h : x ∈ pyStrip s) : x ∈ s := by
  unfold pyStrip at h
  rw [List.mem_reverse] at h
  have h1 := (List.dropWhile_sublist (l := (s.dropWhile isPySpace).reverse)
    (p := isPySpace)).mem h
  rw [List.mem_reverse] at h1
  exact (List.dropWhile_sublist (l := s) (p := isPySpace)).mem h1

/-- Splitting never returns the empty list of pieces. -/
theorem pySplitChar_ne_nil (sep : Char) (s : PyStr) : pySplitChar sep s ≠ [] := by
  cases s with
  | nil => simp [pySplitChar]
  | cons x xs =>
    cases h : pySplitChar sep xs with
    | nil => simp [pySplitChar, h]
    | cons l ls =>
      simp only [pySplitChar, h]
      split <;> simp

/-- Every character of every piece of a split comes from the split
string. -/
theorem mem_of_mem_pySplitChar {sep x : Char} :
    ∀ {s piece : PyStr}, piece ∈ pySplitChar sep s → x ∈ piece → x ∈ s := by
  intro s
  induction s with
  | nil =>
    intro piece hp hx
    simp [pySplitChar] at hp
    subst hp
    simp at hx
  | cons c cs ih =>
    intro piece hp hx
    cases h : pySplitChar sep cs with
    | nil => exact absurd h (pySplitChar_ne_nil sep cs)
    | cons l ls =>
      simp only [pySplitChar, h] at hp
      by_cases hc : c = sep
      · simp only [hc, if_pos rfl] at hp
        rcases List.mem_cons.mp hp with h1 | h1
        · subst h1; simp at hx
        · have : x ∈ cs := ih (h ▸ h1) hx
          exact List.mem_cons_of_mem c this
      · simp only [if_neg hc] at hp
        rcases List.mem_cons.mp hp with h1 | h1
        · subst h1
          rcases List.mem_cons.mp hx with h2 | h2
          · exact h2 ▸ List.mem_cons_self c cs
          · have : x ∈ cs := ih (h ▸ List.mem_cons_self l ls) h2
            exact List.mem_cons_of_mem c this
        · have : x ∈ cs := ih (h ▸ List.mem_cons_of_mem l h1) hx
          exact List.mem_cons_of_mem c this

/-- Indexing with `getD` returns a list element or the default. -/
theorem getD_mem_or_default {α : Type} (l : List α) (i : Nat) (d : α) :
    l.getD i d ∈ l ∨ l.getD i d = d := by
  rw [List.getD_eq_getElem?_getD]
  cases h : l[i]? with
  | none => right; simp
  | some a =>
    left
    simpa [h] using List.getElem?_mem h

/-! ## Claims -/

/-- C1, counterexample: the claim says the first-ever run (history file
absent or zero-sized) requests the larger batch count and subsequent
runs request the single-item count.  In the code
(`num_to_generate = 1 if is_first_time else 10`, src/main.py:56) the
first run requests 1 and a subsequent run (file present, 120 bytes)
requests 10, so the first-run count is not the larger one. -/
theorem C1_counterexample :
    num_to_generate (is_first_time_check false 0) = 1 ∧
    num_to_generate (is_first_time_check true 120) = 10 ∧
    ¬ num_to_generate (is_first_time_check true 120) <
        num_to_generate (is_first_time_check false 0) := by
  decide

/-- C1, amended: first-run detection selects the item count 1 exactly
when the scripts file is absent or zero-sized, and the batch count 10
exactly on runs where a non-empty file is present — the reverse of the
claimed assignment. -/
theorem C1_amended (fileExists : Bool) (size : Nat) :
    (is_first_time_check fileExists size = true ↔ (fileExists = false ∨ size = 0)) ∧
    (fileExists = false ∨ size = 0 →
      num_to_generate (is_first_time_check fileExists size) = 1) ∧
    (fileExists = true → size ≠ 0 →
      num_to_generate (is_first_time_check fileExists size) = 10) := by
  refine ⟨?_, fun h => ?_, fun he hs => ?_⟩
  · cases fileExists <;> simp [is_first_time_check]
  · have hf : is_first_time_check fileExists size = true := by
      rcases h with h | h <;> simp [is_first_time_check, h]
    simp [num_to_generate, hf]
  · have hf : is_first_time_check fileExists size = false := by
      simp [is_first_time_check, he, hs]
    simp [num_to_generate, hf]

/-- C1, witness for the amended theorem at concrete inputs: absent file
(first run) yields 1; a 7-byte file present yields 10. -/
theorem C1_amended_witness :
    num_to_generate (is_first_time_check false 0) = 1 ∧
    num_to_generate (is_first_time_check true 7) = 10 :=
  ⟨(C1_amended false 0).2.1 (Or.inl rfl),
   (C1_amended true 7).2.2 rfl (by decide)⟩

/-- C2: in the post pipeline, a run in which `post_to_x` returns `False`
calls `save_posted_items` never, leaves the file system exactly as the
initial load left it, and the loadable history contents after the run
equal those before the run. -/
theorem C2_failed_post_history_unchanged
    (fs0 : FS) (modelResp : Option PyStr) (call : CallResult)
    (h : post_to_x call = false) :
    (x_main fs0 modelResp call).saveCalled = false ∧
    (x_main fs0 modelResp call).finalFS = (load_posted_items fs0).2 ∧
    (load_posted_items (x_main fs0 modelResp call).finalFS).1 =
      (load_posted_items fs0).1 := by
  cases modelResp with
  | none =>
    refine ⟨rfl, rfl, ?_⟩
    exact load_posted_items_idem fs0
  | some raw =>
    by_cases hempty : tweet_text raw = []
    · refine ⟨?_, ?_, ?_⟩ <;>
        simp [x_main, generate_tweet_content, hempty, load_posted_items_idem]
    · refine ⟨?_, ?_, ?_⟩ <;>
        simp [x_main, generate_tweet_content, hempty, h, load_posted_items_idem]

/-- C2, witness: concrete run with a valid one-item history and a
raising platform call; the history is untouched and no save happens. -/
theorem C2_witness :
    post_to_x .raises = false ∧
    ((x_main ⟨.valid [[Char.ofNat 97]], none⟩
        (some ("hello".toList)) .raises).saveCalled = false ∧
     (x_main ⟨.valid [[Char.ofNat 97]], none⟩
        (some ("hello".toList)) .raises).finalFS =
       (load_posted_items ⟨.valid [[Char.ofNat 97]], none⟩).2 ∧
     (load_posted_items (x_main ⟨.valid [[Char.ofNat 97]], none⟩
        (some ("hello".toList)) .raises).finalFS).1 =
       (load_posted_items ⟨.valid [[Char.ofNat 97]], none⟩).1) :=
  ⟨rfl, C2_failed_post_history_unchanged ⟨.valid [[Char.ofNat 97]], none⟩
      (some ("hello".toList)) .raises rfl⟩

/-- C3: loading a history file whose contents fail to parse returns the
empty list (the function is total — no branch raises), the invalid file
is no longer at the history path but its contents are preserved at the
backup slot, and the backup path is the source path with its suffix
replaced by `.bak`, i.e. `posted_slangs.bak`. -/
theorem C3_corrupt_history_backed_up (c : PyStr) (fs : FS)
    (h : fs.main = .invalid c) :
    (load_posted_items fs).1 = [] ∧
    (load_posted_items fs).2.main = .absent ∧
    (load_posted_items fs).2.bak = some (.invalid c) ∧
    BACKUP_PATH = "posted_slangs.bak".toList := by
  refine ⟨?_, ?_, ?_, ?_⟩
  · simp [load_posted_items, h]
  · simp [load_posted_items, h]
  · simp [load_posted_items, h]
  · decide

/-- C3, witness: a concrete corrupt file with contents "x". -/
theorem C3_witness :
    (⟨.invalid [Char.ofNat 120], none⟩ : FS).main = .invalid [Char.ofNat 120] ∧
    ((load_posted_items ⟨.invalid [Char.ofNat 120], none⟩).1 = [] ∧
     (load_posted_items ⟨.invalid [Char.ofNat 120], none⟩).2.main = .absent ∧
     (load_posted_items ⟨.invalid [Char.ofNat 120], none⟩).2.bak =
       some (.invalid [Char.ofNat 120]) ∧
     BACKUP_PATH = "posted_slangs.bak".toList) :=
  ⟨rfl, C3_corrupt_history_backed_up [Char.ofNat 120]
      ⟨.invalid [Char.ofNat 120], none⟩ rfl⟩

/-- C4: the frame count is the ceiling of `(d + 1.0) * 60` — the least
integer at least `(d + margin) * rate` — with the frame rate fixed at 60
and the end margin at 1.0 s, and for a duration of 9.3 s it is 618.
(Durations are modelled in exact rational arithmetic.) -/
theorem C4_duration_to_frames :
    FRAME_RATE = 60 ∧ END_MARGIN = 1 ∧
    (∀ d : ℚ, (d + END_MARGIN) * FRAME_RATE ≤ (duration_in_frames d : ℚ) ∧
      ∀ n : ℤ, (d + END_MARGIN) * FRAME_RATE ≤ (n : ℚ) → duration_in_frames d ≤ n) ∧
    duration_in_frames (93 / 10) = 618 := by
  refine ⟨rfl, rfl, ?_, ?_⟩
  · intro d
    exact ⟨Int.le_ceil _, fun n hn => Int.ceil_le.mpr hn⟩
  · have h : ((93 / 10 : ℚ) + END_MARGIN) * FRAME_RATE = ((618 : ℤ) : ℚ) := by
      norm_num [END_MARGIN, FRAME_RATE]
    unfold duration_in_frames
    rw [h, Int.ceil_intCast]

/-- C4, witness: the theorem applied at the concrete duration 9.3 s. -/
theorem C4_witness : duration_in_frames (93 / 10) = 618 :=
  C4_duration_to_frames.2.2.2

/-- C5, counterexample: the raw response beginning with a newline,
marker on its second physical line, refutes the claim as stated — the
first line of the response is empty and lacks the marker, yet the
extracted key is `some "YOLO"`, not none, because extraction runs on
the whitespace-stripped text. -/
theorem C5_counterexample :
    containsSeq MARKER
        (((pySplitChar nl ("\n【今日のネイティブフレーズ】\nYOLO".toList)).getD 0 []))
      = false ∧
    extract_new_item ("\n【今日のネイティブフレーズ】\nYOLO".toList) =
      some ("YOLO".toList) := by
  decide

/-- C5, amended: extraction operates on the normalized text (the
response stripped of surrounding whitespace, with backticks removed).
When the normalized text has at least two lines and its first line
contains the marker, the key is the trimmed second line; when its first
line lacks the marker the key is none; the normalized text is returned
for posting either way, and on a successful post with no key the run
takes the warning path and records nothing in the history. -/
theorem C5_amended (raw : PyStr) :
    (generate_tweet_content raw).1 = tweet_text raw ∧
    (1 < (pySplitChar nl (tweet_text raw)).length ∧
        containsSeq MARKER ((pySplitChar nl (tweet_text raw)).getD 0 []) = true →
      (generate_tweet_content raw).2 =
        some (pyStrip ((pySplitChar nl (tweet_text raw)).getD 1 []))) ∧
    (containsSeq MARKER ((pySplitChar nl (tweet_text raw)).getD 0 []) = false →
      (generate_tweet_content raw).2 = none) ∧
    (∀ (fs0 : FS) (call : CallResult), tweet_text raw ≠ [] →
      post_to_x call = true → (generate_tweet_content raw).2 = none →
      (x_main fs0 (some raw) call).warned = true ∧
      (x_main fs0 (some raw) call).saveCalled = false ∧
      (x_main fs0 (some raw) call).posted = true) := by
  refine ⟨rfl, ?_, ?_, ?_⟩
  · intro hcond
    simp only [generate_tweet_content, extract_new_item]
    rw [if_pos hcond]
  · intro hno
    simp only [generate_tweet_content, extract_new_item]
    rw [if_neg]
    intro hcond
    rw [hno] at hcond
    exact Bool.false_ne_true hcond.2
  · intro fs0 call hne hpost hnone
    have hext : extract_new_item raw = none := hnone
    refine ⟨?_, ?_, ?_⟩ <;>
      simp [x_main, generate_tweet_content, hne, hpost, hext]

/-- C5, witness for the amended theorem: a marker-led response yields
the key "YOLO"; a marker-free response yields no key, and with a
successful post the run warns without saving. -/
theorem C5_amended_witness :
    (generate_tweet_content ("【今日のネイティブフレーズ】\nYOLO".toList)).2 =
      some ("YOLO".toList) ∧
    (generate_tweet_content ("hello".toList)).2 = none ∧
    (x_main ⟨.absent, none⟩ (some ("hello".toList))
        (.returns (some (some [Char.ofNat 49])))).warned = true := by
  refine ⟨?_, ?_, ?_⟩
  · have h := (C5_amended ("【今日のネイティブフレーズ】\nYOLO".toList)).2.1 (by decide)
    rw [h]
    decide
  · exact (C5_amended ("hello".toList)).2.2.1 (by decide)
  · exact ((C5_amended ("hello".toList)).2.2.2 ⟨.absent, none⟩
      (.returns (some (some [Char.ofNat 49])))
      (by decide) (by decide) (by decide)).1

/-- C6: appending a fresh item to the loaded history and saving gives a
store whose next load returns exactly the old history followed by the
new item: it ends in the new item's key and preserves every prior item
in its original position. -/
theorem C6_append_round_trip (fs : FS) (item : PyStr)
    (hnew : item ∉ (load_posted_items fs).1) :
    (load_posted_items (save_posted_items
        ((load_posted_items fs).1 ++ [item]) (load_posted_items fs).2)).1 =
      (load_posted_items fs).1 ++ [item] ∧
    ((load_posted_items fs).1 ++ [item]).getLast? = some item ∧
    ((load_posted_items fs).1 ++ [item]).take (load_posted_items fs).1.length =
      (load_posted_items fs).1 := by
  refine ⟨rfl, ?_, ?_⟩
  · exact List.getLast?_concat _
  · exact List.take_left _ _

/-- C6, witness: history `["a"]` plus the fresh item `"b"`. -/
theorem C6_witness :
    [Char.ofNat 98] ∉ (load_posted_items ⟨.valid [[Char.ofNat 97]], none⟩).1 ∧
    (load_posted_items (save_posted_items
        ((load_posted_items ⟨.valid [[Char.ofNat 97]], none⟩).1 ++ [[Char.ofNat 98]])
        (load_posted_items ⟨.valid [[Char.ofNat 97]], none⟩).2)).1 =
      (load_posted_items ⟨.valid [[Char.ofNat 97]], none⟩).1 ++ [[Char.ofNat 98]] :=
  ⟨by decide,
   (C6_append_round_trip ⟨.valid [[Char.ofNat 97]], none⟩ [Char.ofNat 98]
      (by decide)).1⟩

/-- C7: a model response whose text fails to parse as JSON, or parses
to a non-list top-level value, makes `generate_script_with_gemini`
return the empty list (the raised `JSONDecodeError` is caught), and the
pipeline then neither runs the audio-generation step nor attempts any
render. -/
theorem C7_parse_failure_skips_downstream
    (p : ParseOutcome) (audioOk : Script → Bool)
    (h : p = .parseError ∨ p = .topLevelNotList) :
    generate_script_result p = [] ∧
    video_main_run p audioOk = ⟨[], false, 0⟩ := by
  rcases h with h | h <;> subst h <;> exact ⟨rfl, rfl⟩

/-- C7, witness: a parse error with every TTS call succeeding. -/
theorem C7_witness :
    (ParseOutcome.parseError = .parseError ∨
      ParseOutcome.parseError = .topLevelNotList) ∧
    generate_script_result .parseError = [] ∧
    video_main_run .parseError (fun _ => true) = ⟨[], false, 0⟩ :=
  ⟨Or.inl rfl, C7_parse_failure_skips_downstream .parseError (fun _ => true) (Or.inl rfl)⟩

/-- C8, counterexample: with the Gemini key present and the OpenAI key
missing, the video pipeline prints the configuration diagnostic and
finishes gracefully — the `ValueError` from `setup_environment` is
caught by `main` (src/main.py:278-279) — rather than performing the
claimed immediate hard exit. -/
theorem C8_counterexample :
    video_main_exit (some [Char.ofNat 107]) none = .gracefulFinish true := by
  decide

/-- C8, amended: the post pipeline hard-exits with code 1 when any of
its five credentials is missing; the video pipeline with a missing API
key prints the diagnostic and finishes gracefully instead of
hard-exiting. -/
theorem C8_amended (e : XEnv) (authOk : Bool) (gemini openai : Option PyStr) :
    ((envTruthy e.gemini_api_key = false ∨ envTruthy e.x_api_key = false ∨
      envTruthy e.x_api_key_secret = false ∨ envTruthy e.x_access_token = false ∨
      envTruthy e.x_access_token_secret = false) →
      setup_clients e authOk = .exitProcess 1) ∧
    ((envTruthy gemini = false ∨ envTruthy openai = false) →
      video_main_exit gemini openai = .gracefulFinish true) := by
  constructor
  · intro h
    rcases h with h | h | h | h | h <;> simp [setup_clients, h]
  · intro h
    rcases h with h | h <;> simp [video_main_exit, setup_environment, h]

/-- C8, witness: every credential missing — the post pipeline exits
with code 1 and the video pipeline finishes gracefully. -/
theorem C8_amended_witness :
    setup_clients ⟨none, none, none, none, none⟩ true = .exitProcess 1 ∧
    video_main_exit none none = .gracefulFinish true :=
  ⟨(C8_amended ⟨none, none, none, none, none⟩ true none none).1 (Or.inl rfl),
   (C8_amended ⟨none, none, none, none, none⟩ true none none).2 (Or.inl rfl)⟩

/-- C9: `post_to_x` returns `True` exactly when the platform call
returned (did not raise) with a response carrying a (truthy) tweet id;
in particular a caught exception, a falsy response/data, and a response
without an id all return `False`. -/
theorem C9_post_success_iff_tweet_id (call : CallResult) :
    (post_to_x call = true ↔
      ∃ id, call = .returns (some (some id)) ∧ id ≠ []) ∧
    post_to_x .raises = false ∧
    post_to_x (.returns none) = false ∧
    post_to_x (.returns (some none)) = false := by
  refine ⟨?_, rfl, rfl, rfl⟩
  cases call with
  | raises => simp [post_to_x]
  | returns data =>
    cases data with
    | none => simp [post_to_x]
    | some inner =>
      cases inner with
      | none => simp [post_to_x]
      | some id => simp [post_to_x]

/-- C9, witness: a response with id "1" posts successfully; a response
whose data has no id fails. -/
theorem C9_witness :
    post_to_x (.returns (some (some [Char.ofNat 49]))) = true ∧
    post_to_x (.returns (some none)) = false := by
  constructor
  · exact (C9_post_success_iff_tweet_id (.returns (some (some [Char.ofNat 49])))).1.mpr
      ⟨[Char.ofNat 49], rfl, by decide⟩
  · exact (C9_post_success_iff_tweet_id (.returns (some none))).2.2.2

/-- C10: the tweet text returned by `generate_tweet_content` never
contains a backtick, and neither does any extracted key (the key is cut
from the backtick-free text), so neither the posted text nor the
recorded history key can contain one. -/
theorem C10_no_backtick_in_output (raw : PyStr) :
    backtick ∉ (generate_tweet_content raw).1 ∧
    ∀ k, (generate_tweet_content raw).2 = some k → backtick ∉ k := by
  have h1 : backtick ∉ tweet_text raw := not_mem_pyRemoveChar backtick (pyStrip raw)
  refine ⟨h1, ?_⟩
  intro k hk hmem
  simp only [generate_tweet_content] at hk
  unfold extract_new_item at hk
  split at hk
  · have hk2 : pyStrip ((pySplitChar nl (tweet_text raw)).getD 1 []) = k :=
      Option.some.inj hk
    have hmem2 : backtick ∈ (pySplitChar nl (tweet_text raw)).getD 1 [] :=
      mem_of_mem_pyStrip (hk2 ▸ hmem)
    rcases getD_mem_or_default (pySplitChar nl (tweet_text raw)) 1 [] with hp | hd
    · exact h1 (mem_of_mem_pySplitChar hp hmem2)
    · rw [hd] at hmem2
      exact List.not_mem_nil backtick hmem2
  · exact Option.noConfusion hk

/-- C10, witness: a response whose second line is backtick-quoted
yields the backtick-free key "YOLO", and the returned text is
backtick-free. -/
theorem C10_witness :
    backtick ∉ (generate_tweet_content ("【今日のネイティブフレーズ】\n`YOLO`".toList)).1 ∧
    backtick ∉ ("YOLO".toList) :=
  ⟨(C10_no_backtick_in_output ("【今日のネイティブフレーズ】\n`YOLO`".toList)).1,
   (C10_no_backtick_in_output ("【今日のネイティブフレーズ】\n`YOLO`".toList)).2
     ("YOLO".toList) (by decide)⟩

end XAuto
